import Mathlib

/-!
Verification of the two resource adapters in
`vault/resource_terraform_cloud_secret_backend_role.go`: the Terraform Cloud
secret-backend role CRUD handlers and the identity entity-alias CRUD handlers.

The Go code is shallowly embedded: pure path/regex helpers become Lean functions
on `String`/`List Char`; the handlers become functions from an explicit client
oracle and an explicit resource-data record to a trace of remote calls plus an
outcome (success with new state, returned error with the state at the point of
return, or runtime panic).
-/

namespace TfProviderVault

/-! ### Role path construction and parsing -/

/-- Models Go `strings.Trim(s, "/")`: remove all leading and trailing `'/'`
characters. -/
def trimSlashes (s : String) : String :=
  ⟨((s.data.dropWhile (fun c => c = '/')).reverse.dropWhile (fun c => c = '/')).reverse⟩

/-- `terraformCloudSecretBackendRolePath` (source lines 205-207):
`strings.Trim(backend, "/") + "/role/" + name`. -/
def terraformCloudSecretBackendRolePath (backend name : String) : String :=
  trimSlashes backend ++ "/role/" ++ name

/-- The six characters of the literal `"/role/"` appearing in both regexes. -/
def roleSep : List Char := ['/', 'r', 'o', 'l', 'e', '/']

/-- Position `i` of `s` is a feasible split point for the anchored patterns
`^(.+)/role/.+$` and `^.+/role/(.+$)`: the literal `"/role/"` occurs at `i`,
with at least one character before it and at least one after it. -/
def roleSepCandidate (s : List Char) (i : Nat) : Prop :=
  1 ≤ i ∧ i + 7 ≤ s.length ∧ (s.drop i).take 6 = roleSep

instance (s : List Char) (i : Nat) : Decidable (roleSepCandidate s i) := by
  unfold roleSepCandidate; exact inferInstance

/-- The greedy `.+` before `/role/` in both anchored patterns backtracks from the
end, so the match splits at the LAST feasible occurrence of `"/role/"`. -/
def lastRoleSep (s : List Char) : Nat :=
  Nat.findGreatest (roleSepCandidate s) s.length

/-- Whether the anchored patterns match `s` at all: Go's `.` never matches a
newline, and `^`/`$` anchor the whole string, so `s` must be newline-free and
have a feasible `"/role/"` split (the candidate at `lastRoleSep s` exists iff
any candidate exists). -/
def roleRegexMatches (s : List Char) : Prop :=
  ¬ '\n' ∈ s ∧ roleSepCandidate s (lastRoleSep s)

instance (s : List Char) : Decidable (roleRegexMatches s) := by
  unfold roleRegexMatches; exact inferInstance

/-- `terraformCloudSecretBackendRoleBackendFromPath` (source lines 220-229): the
capture group of `^(.+)/role/.+$`, i.e. everything before the last feasible
`"/role/"`. -/
def terraformCloudSecretBackendRoleBackendFromPath (p : String) : Except String String :=
  if roleRegexMatches p.data then .ok ⟨p.data.take (lastRoleSep p.data)⟩
  else .error "no backend found"

/-- `terraformCloudSecretBackendRoleNameFromPath` (source lines 209-218): the
capture group of `^.+/role/(.+$)`, i.e. everything after the last feasible
`"/role/"`. -/
def terraformCloudSecretBackendRoleNameFromPath (p : String) : Except String String :=
  if roleRegexMatches p.data then .ok ⟨p.data.drop (lastRoleSep p.data + 6)⟩
  else .error "no name found"

theorem roleSep_data : "/role/".data = roleSep := by decide

/-- In `B ++ "/role/" ++ N` with `B` nonempty, `N` nonempty and slash-free, the
last feasible split is exactly at the seam `B.length`. -/
theorem lastRoleSep_concat (B N : List Char) (hB : B ≠ []) (hN : N ≠ [])
    (hslash : ¬ '/' ∈ N) :
    lastRoleSep (B ++ roleSep ++ N) = B.length := by
  have hBlen : 1 ≤ B.length := List.length_pos.mpr hB
  have hNlen : 1 ≤ N.length := List.length_pos.mpr hN
  have hlen : (B ++ roleSep ++ N).length = B.length + 6 + N.length := by
    simp [List.length_append, roleSep]; omega
  unfold lastRoleSep
  rw [Nat.findGreatest_eq_iff]
  refine ⟨by omega, fun _ => ?_, fun k hk hk' hcand => ?_⟩
  · refine ⟨hBlen, by omega, ?_⟩
    rw [List.append_assoc, List.drop_left,
      @List.take_left' Char roleSep N 6 (by simp [roleSep])]
  · obtain ⟨j, hj1, rfl⟩ : ∃ j, 1 ≤ j ∧ k = B.length + j :=
      ⟨k - B.length, by omega, by omega⟩
    obtain ⟨-, h7, heq⟩ := hcand
    rw [List.append_assoc, List.drop_append] at heq
    have hj7 : j + 1 ≤ N.length := by omega
    rcases Nat.lt_or_ge j 7 with hj | hj
    · interval_cases j
      · simp [roleSep, List.take_cons] at heq
      · simp [roleSep, List.take_cons] at heq
      · simp [roleSep, List.take_cons] at heq
      · simp [roleSep, List.take_cons] at heq
      · simp [roleSep, List.take_cons] at heq
        exact hslash (List.take_subset 5 N
          (heq ▸ (by decide : '/' ∈ (['r', 'o', 'l', 'e', '/'] : List Char))))
      · simp [roleSep] at heq
        exact hslash (List.take_subset 6 N (heq ▸ (by decide : '/' ∈ roleSep)))
    · have hd : List.drop j (roleSep ++ N) = List.drop (j - 6) N := by
        have h := @List.drop_append Char roleSep N (j - 6)
        rw [show roleSep.length + (j - 6) = j from by simp [roleSep]; omega] at h
        exact h
      rw [hd] at heq
      exact hslash (List.drop_subset (j - 6) N
        (List.take_subset 6 _ (heq ▸ (by decide : '/' ∈ roleSep))))

theorem rolePath_data (backend name : String) (ht : trimSlashes backend = backend) :
    (terraformCloudSecretBackendRolePath backend name).data =
      backend.data ++ roleSep ++ name.data := by
  unfold terraformCloudSecretBackendRolePath
  rw [ht, String.data_append, String.data_append, roleSep_data]

theorem data_ne_nil_of_ne_empty {s : String} (h : s ≠ "") : s.data ≠ [] :=
  fun hd => h (String.ext (hd.trans rfl))

/-- C1: for every valid `(backend, name)` pair — backend nonempty and already
slash-trimmed, name nonempty and containing no slash, both newline-free — the
role path round-trips through both parsers; and the spec's concrete examples
hold: `path "tfc/" "admin" = "tfc/role/admin"`, which parses back to
`("tfc", "admin")`. -/
theorem role_path_roundtrip (backend name : String)
    (hb : backend ≠ "") (ht : trimSlashes backend = backend) (hn : name ≠ "")
    (hslash : ¬ '/' ∈ name.data) (hnl : ¬ '\n' ∈ backend.data)
    (hnl' : ¬ '\n' ∈ name.data) :
    terraformCloudSecretBackendRoleBackendFromPath
        (terraformCloudSecretBackendRolePath backend name) = .ok backend ∧
    terraformCloudSecretBackendRoleNameFromPath
        (terraformCloudSecretBackendRolePath backend name) = .ok name ∧
    terraformCloudSecretBackendRolePath "tfc/" "admin" = "tfc/role/admin" ∧
    terraformCloudSecretBackendRoleBackendFromPath "tfc/role/admin" = .ok "tfc" ∧
    terraformCloudSecretBackendRoleNameFromPath "tfc/role/admin" = .ok "admin" := by
  have hB : backend.data ≠ [] := data_ne_nil_of_ne_empty hb
  have hN : name.data ≠ [] := data_ne_nil_of_ne_empty hn
  have hdata := rolePath_data backend name ht
  have hsep := lastRoleSep_concat backend.data name.data hB hN hslash
  have hmatch : roleRegexMatches (terraformCloudSecretBackendRolePath backend name).data := by
    rw [hdata]
    refine ⟨fun h => ?_, ?_⟩
    · rcases List.mem_append.mp h with h1 | h2
      · rcases List.mem_append.mp h1 with ha | hb
        · exact hnl ha
        · exact (by decide : ¬ '\n' ∈ roleSep) hb
      · exact hnl' h2
    · rw [hsep]
      refine ⟨List.length_pos.mpr hB, ?_, ?_⟩
      · have hNlen := List.length_pos.mpr hN
        have h6 : roleSep.length = 6 := rfl
        simp only [List.length_append, h6]
        omega
      · rw [List.append_assoc, List.drop_left,
          @List.take_left' Char roleSep name.data 6 (by simp [roleSep])]
  refine ⟨?_, ?_, by decide, ?_, ?_⟩
  · rw [terraformCloudSecretBackendRoleBackendFromPath, if_pos hmatch]
    rw [hdata, hsep, List.append_assoc, List.take_left]
  · rw [terraformCloudSecretBackendRoleNameFromPath, if_pos hmatch]
    rw [hdata, hsep, List.append_assoc]
    rw [show backend.data.length + 6 = (backend.data ++ roleSep).length from by
      simp [List.length_append, roleSep]]
    rw [← List.append_assoc, List.drop_left]
  · rw [terraformCloudSecretBackendRoleBackendFromPath,
      if_pos (by decide : roleRegexMatches "tfc/role/admin".data)]
    exact congrArg Except.ok (by decide)
  · rw [terraformCloudSecretBackendRoleNameFromPath,
      if_pos (by decide : roleRegexMatches "tfc/role/admin".data)]
    exact congrArg Except.ok (by decide)

/-- Witness for C1 at `backend = "tfc"`, `name = "admin"`. -/
theorem role_path_roundtrip_witness :
    terraformCloudSecretBackendRoleBackendFromPath
        (terraformCloudSecretBackendRolePath "tfc" "admin") = .ok "tfc" :=
  (role_path_roundtrip "tfc" "admin" (by decide) (by decide) (by decide)
    (by decide) (by decide) (by decide)).1

/-! ### Dynamic values, secrets, and the client oracle -/

/-- Go `interface{}` values as they occur in this code: strings, integers,
string-keyed maps, slices, and `nil`. -/
inductive Value where
  | str (s : String)
  | int (n : Int)
  | obj (fields : List (String × Value))
  | arr (elems : List Value)
  | null

/-- Go map indexing: a missing key yields the zero `interface{}` value `nil`. -/
def objGet (fields : List (String × Value)) (k : String) : Value :=
  match fields.lookup k with
  | some v => v
  | none => Value.null

/-- Go map assignment `m[k] = v`: replace the binding if present, else add it. -/
def mapSet : List (String × Value) → String → Value → List (String × Value)
  | [], k, v => [(k, v)]
  | (k', v') :: rest, k, v =>
    if k' = k then (k, v) :: rest else (k', v') :: mapSet rest k v

/-- Go `x == s` where `x : interface{}` and `s : string`: true iff the dynamic
type of `x` is `string` and the contents agree (values of differing dynamic
types compare unequal without panicking). -/
def valueEqStr : Value → String → Bool
  | .str s, t => s == t
  | _, _ => false

/-- `api.Secret`: only its `Data map[string]interface{}` field is used here. -/
structure Secret where
  data : List (String × Value)

/-- `secret.Data[k]`. -/
def Secret.get (s : Secret) (k : String) : Value := objGet s.data k

/-- Result of one remote call `(resp, err)`: a transport error, or a possibly
nil `*api.Secret`. -/
inductive CallResult where
  | ok (resp : Option Secret)
  | fail (e : String)

/-- The injected API client: an oracle giving the outcome of each remote
read, write and delete. -/
structure Client where
  read : String → CallResult
  write : String → List (String × Value) → CallResult
  delete : String → CallResult

/-- One remote call as recorded in a handler's trace. -/
inductive RemoteCall where
  | read (p : String)
  | write (p : String) (data : List (String × Value))
  | delete (p : String)

/-- Outcome of a handler: normal return with the final resource data, an error
return carrying the resource data as mutated up to that point, or a Go
runtime panic. -/
inductive Result (σ : Type) where
  | ok (d : σ)
  | err (d : σ) (msg : String)
  | panic (msg : String)

/-- `fmt`'s `%q` verb on a string (none of the identifiers formatted here need
escaping). -/
def goQuote (s : String) : String := "\"" ++ s ++ "\""

/-! ### `schema.ResourceData` accessors -/

/-- `d.Get` on a string attribute: the stored value, or the zero value `""`
when unset. -/
def getStr : Option String → String
  | some s => s
  | none => ""

/-- `d.GetOk` on a string attribute: `ok` iff the attribute is set to a
non-zero (non-empty) value. -/
def getOk : Option String → Option String
  | some s => if s = "" then none else some s
  | none => none

/-- `d.Get` on a map attribute: the stored map, or the zero value (empty map)
when unset. -/
def getMap : Option (List (String × Value)) → List (String × Value)
  | some m => m
  | none => []

/-- `d.Set` on a string-typed schema attribute: a string value is stored, `nil`
stores the zero value, any other dynamic type is a type error. -/
def trySetStr : Value → Except String (Option String)
  | .str s => .ok (some s)
  | .null => .ok (some "")
  | _ => .error "expected type string"

/-- `d.Set` on an int-typed schema attribute. -/
def trySetInt : Value → Except String (Option Int)
  | .int n => .ok (some n)
  | .null => .ok (some 0)
  | _ => .error "expected type int"

/-- `d.Set` on a map-typed schema attribute. -/
def trySetMap : Value → Except String (Option (List (String × Value)))
  | .obj m => .ok (some m)
  | .null => .ok (some [])
  | _ => .error "expected type map"

/-- `d.Set` whose returned error the caller ignores (the role Read handler
never checks it): on a type error the attribute keeps its old value. -/
def setStrIgnoringError (old : Option String) (v : Value) : Option String :=
  match trySetStr v with
  | .ok f => f
  | .error _ => old

def setIntIgnoringError (old : Option Int) (v : Value) : Option Int :=
  match trySetInt v with
  | .ok f => f
  | .error _ => old

/-! ### Role resource handlers -/

/-- The `schema.ResourceData` of the role resource: the id plus one field per
schema attribute; `none` means the attribute is not set (`name` is a required
string, read only through `d.Get`, so it is stored with its zero default). -/
structure RoleResourceData where
  id : String
  name : String
  path : Option String
  backend : Option String
  organization : Option String
  team_id : Option String
  user_id : Option String
  max_ttl : Option Int
  ttl : Option Int

/-- Source lines 81-89: `backend` if `GetOk`, else the deprecated `path` if
`GetOk`, else `""`. -/
def terraformCloudSecretBackendRoleGetBackend (d : RoleResourceData) : String :=
  match getOk d.backend with
  | some v => v
  | none =>
    match getOk d.path with
    | some v => v
    | none => ""

/-- The outbound payload built by `terraformCloudSecretBackendRoleWrite`
(source lines 103-119): each attribute is added iff `d.GetOkExists` reports it
as set — present in the data, even with a zero value (`GetOkExists`, unlike
`GetOk`, performs no zero-value test). -/
def terraformCloudSecretBackendRoleWritePayload (d : RoleResourceData) :
    List (String × Value) :=
  (match d.max_ttl with | some v => [("max_ttl", Value.int v)] | none => [])
  ++ (match d.ttl with | some v => [("ttl", Value.int v)] | none => [])
  ++ (match d.organization with | some v => [("organization", Value.str v)] | none => [])
  ++ (match d.team_id with | some v => [("team_id", Value.str v)] | none => [])
  ++ (match d.user_id with | some v => [("user_id", Value.str v)] | none => [])

/-- `terraformCloudSecretBackendRoleRead` (source lines 131-174). -/
def terraformCloudSecretBackendRoleRead (c : Client) (d : RoleResourceData) :
    List RemoteCall × Result RoleResourceData :=
  let p := d.id
  match terraformCloudSecretBackendRoleNameFromPath p with
  | .error e =>
    ([], .err { d with id := "" } ("invalid role ID " ++ goQuote p ++ ": " ++ e))
  | .ok name =>
  match terraformCloudSecretBackendRoleBackendFromPath p with
  | .error e =>
    ([], .err { d with id := "" } ("invalid role ID " ++ goQuote p ++ ": " ++ e))
  | .ok backend =>
  match c.read p with
  | .fail e =>
    ([.read p], .err d ("error reading role configuration for " ++ goQuote p ++ ": " ++ e))
  | .ok none => ([.read p], .err d "resource not found")
  | .ok (some secret) =>
    let d := { d with name := name }
    let d :=
      if (getOk d.path).isSome then { d with path := some backend }
      else { d with backend := some backend }
    let d := { d with organization := setStrIgnoringError d.organization (secret.get "organization") }
    let d := { d with team_id := setStrIgnoringError d.team_id (secret.get "team_id") }
    let d := { d with user_id := setStrIgnoringError d.user_id (secret.get "user_id") }
    let d := { d with max_ttl := setIntIgnoringError d.max_ttl (secret.get "max_ttl") }
    let d := { d with ttl := setIntIgnoringError d.ttl (secret.get "ttl") }
    ([.read p], .ok d)

/-- `terraformCloudSecretBackendRoleWrite` (source lines 91-129), the Create
and Update handler. -/
def terraformCloudSecretBackendRoleWrite (c : Client) (d : RoleResourceData) :
    List RemoteCall × Result RoleResourceData :=
  let name := d.name
  let backend := terraformCloudSecretBackendRoleGetBackend d
  if backend = "" then
    ([], .err d ("No backend specified for Terraform Cloud secret backend role " ++ name))
  else
    let p := terraformCloudSecretBackendRolePath backend name
    let payload := terraformCloudSecretBackendRoleWritePayload d
    match c.write p payload with
    | .fail e =>
      ([.write p payload],
        .err d ("error writing role configuration for " ++ goQuote p ++ ": " ++ e))
    | .ok _ =>
      let d' := { d with id := p }
      let res := terraformCloudSecretBackendRoleRead c d'
      (.write p payload :: res.1, res.2)

/-- `terraformCloudSecretBackendRoleDelete` (source lines 176-188). -/
def terraformCloudSecretBackendRoleDelete (c : Client) (d : RoleResourceData) :
    List RemoteCall × Result RoleResourceData :=
  let p := d.id
  match c.delete p with
  | .fail e =>
    ([.delete p],
      .err d ("error deleting Terraform Cloud backend role at " ++ goQuote p ++ ": " ++ e))
  | .ok _ => ([.delete p], .ok d)

/-- `terraformCloudSecretBackendRoleExists` (source lines 190-203). -/
def terraformCloudSecretBackendRoleExists (c : Client) (d : RoleResourceData) :
    List RemoteCall × Bool × Option String :=
  let p := d.id
  match c.read p with
  | .fail e =>
    ([.read p], false,
      some ("error reading role configuration for " ++ goQuote p ++ ": " ++ e))
  | .ok resp => ([.read p], resp.isSome, none)

/-- Models the plugin SDK's `ConflictsWith` validation induced by the role
schema (source lines 36-49): `path` and `backend` declare `ConflictsWith` on
each other, so a configuration with both attributes set is rejected by the
framework before the Create/Update handler runs. -/
def terraformCloudSecretBackendRoleConfigConflict (d : RoleResourceData) : Bool :=
  d.path.isSome && d.backend.isSome

/-- Role Create/Update as invoked through the framework: schema validation
first, then the handler. -/
def terraformCloudSecretBackendRoleCreateWithValidation (c : Client) (d : RoleResourceData) :
    List RemoteCall × Result RoleResourceData :=
  if terraformCloudSecretBackendRoleConfigConflict d then
    ([], .err d "\"path\": conflicts with backend")
  else terraformCloudSecretBackendRoleWrite c d

/-! ### Entity-alias resource handlers -/

/-- The `schema.ResourceData` of the entity-alias resource. -/
structure AliasResourceData where
  id : String
  name : Option String
  mount_accessor : Option String
  canonical_id : Option String
  custom_metadata : Option (List (String × Value))

/-- `identityEntityAliasPath` (source line 240). -/
def identityEntityAliasPath : String := "/identity/entity-alias"

/-- `identityEntityAliasNamePath` (source lines 429-431). -/
def identityEntityAliasNamePath (name : String) : String :=
  identityEntityAliasPath ++ "/name/" ++ name

/-- `identityEntityAliasIDPath` (source lines 433-435). -/
def identityEntityAliasIDPath (id : String) : String :=
  identityEntityAliasPath ++ "/id/" ++ id

/-- Modelled from the spec: `identityEntityIDPath` is defined elsewhere in the
repository (not among the given sources); per the spec the merge-recovery
procedure "reads `/identity/entity-id/{canonical_id}`". -/
def identityEntityIDPath (id : String) : String := "/identity/entity-id/" ++ id

/-- The failure message of `findAliasID` (source line 455). -/
def findAliasIDFailMsg (canonicalID name mountAccessor : String) : String :=
  "unable to determine alias ID. canonical ID: " ++ goQuote canonicalID ++
    "  name: " ++ goQuote name ++ "  mountAccessor: " ++ goQuote mountAccessor

/-- Either a normal Go return value or a runtime panic. -/
inductive OrPanic (α : Type) where
  | ret (a : α)
  | panic (msg : String)

/-- The loop of `findAliasID` (source lines 446-453): scan the entity's
`aliases` slice for an entry whose `name` and `mount_accessor` equal the
request; the per-element and id type assertions panic on other dynamic
types. -/
def findAliasIDScan (canonicalID name mountAccessor : String) :
    List Value → OrPanic (Except String String)
  | [] => .ret (.error (findAliasIDFailMsg canonicalID name mountAccessor))
  | aliasRaw :: rest =>
    match aliasRaw with
    | .obj al =>
      if valueEqStr (objGet al "name") name
          && valueEqStr (objGet al "mount_accessor") mountAccessor then
        match objGet al "id" with
        | .str s => .ret (.ok s)
        | _ => .panic "interface conversion: interface is not string"
      else findAliasIDScan canonicalID name mountAccessor rest
    | _ => .panic "interface conversion: interface is not a string map"

/-- `findAliasID` (source lines 437-456). -/
def findAliasID (c : Client) (canonicalID name mountAccessor : String) :
    List RemoteCall × OrPanic (Except String String) :=
  let p := identityEntityIDPath canonicalID
  match c.read p with
  | .fail e => ([.read p], .ret (.error ("error reading entity aliases: " ++ e)))
  | .ok none =>
    ([.read p], .ret (.error (findAliasIDFailMsg canonicalID name mountAccessor)))
  | .ok (some resp) =>
    match resp.get "aliases" with
    | .arr aliases =>
      ([.read p], findAliasIDScan canonicalID name mountAccessor aliases)
    | _ => ([.read p], .panic "interface conversion: interface is not a slice")

/-- The message of the alias Read handler for a failing `d.Set` (source
line 384). -/
def identityEntityAliasSetErrMsg (k id e : String) : String :=
  "error setting state key " ++ goQuote k ++ " on IdentityEntityAlias " ++
    goQuote id ++ ":  err=" ++ goQuote e

/-- `identityEntityAliasRead` (source lines 363-388). -/
def identityEntityAliasRead (c : Client) (d : AliasResourceData) :
    List RemoteCall × Result AliasResourceData :=
  let id := d.id
  let p := identityEntityAliasIDPath id
  match c.read p with
  | .fail e =>
    ([.read p], .err d ("error reading IdentityEntityAlias " ++ goQuote id ++ ": " ++ e))
  | .ok none => ([.read p], .ok { d with id := "" })
  | .ok (some resp) =>
    match resp.get "id" with
    | .str s =>
      let d := { d with id := s }
      match trySetStr (resp.get "name") with
      | .error e => ([.read p], .err d (identityEntityAliasSetErrMsg "name" id e))
      | .ok f =>
      let d := { d with name := f }
      match trySetStr (resp.get "mount_accessor") with
      | .error e => ([.read p], .err d (identityEntityAliasSetErrMsg "mount_accessor" id e))
      | .ok f =>
      let d := { d with mount_accessor := f }
      match trySetStr (resp.get "canonical_id") with
      | .error e => ([.read p], .err d (identityEntityAliasSetErrMsg "canonical_id" id e))
      | .ok f =>
      let d := { d with canonical_id := f }
      match trySetMap (resp.get "custom_metadata") with
      | .error e => ([.read p], .err d (identityEntityAliasSetErrMsg "custom_metadata" id e))
      | .ok f => ([.read p], .ok { d with custom_metadata := f })
    | _ => ([.read p], .panic "interface conversion: interface is not string")

/-- The payload written by `identityEntityAliasCreate` (source lines
293-298). -/
def identityEntityAliasCreateData (d : AliasResourceData) : List (String × Value) :=
  [("name", .str (getStr d.name)),
   ("mount_accessor", .str (getStr d.mount_accessor)),
   ("canonical_id", .str (getStr d.canonical_id)),
   ("custom_metadata", .obj (getMap d.custom_metadata))]

/-- `identityEntityAliasCreate` (source lines 283-321). -/
def identityEntityAliasCreate (c : Client) (d : AliasResourceData) :
    List RemoteCall × Result AliasResourceData :=
  let name := getStr d.name
  let mountAccessor := getStr d.mount_accessor
  let canonicalID := getStr d.canonical_id
  let p := identityEntityAliasPath
  let data := identityEntityAliasCreateData d
  match c.write p data with
  | .fail e =>
    ([.write p data],
      .err d ("error writing IdentityEntityAlias to " ++ goQuote name ++ ": " ++ e))
  | .ok none =>
    let recovery := findAliasID c canonicalID name mountAccessor
    match recovery.2 with
    | .panic m => (.write p data :: recovery.1, .panic m)
    | .ret r =>
      let aliasIDMsg :=
        match r with
        | .ok aliasID => "Alias resource ID " ++ goQuote aliasID ++ " may be imported."
        | .error _ => "Unable to determine alias id."
      (.write p data :: recovery.1,
        .err d ("IdentityEntityAlias " ++ goQuote name ++ " already exists. " ++ aliasIDMsg))
  | .ok (some resp) =>
    match resp.get "id" with
    | .str s =>
      let d' := { d with id := s }
      let res := identityEntityAliasRead c d'
      (.write p data :: res.1, res.2)
    | _ => ([.write p data], .panic "interface conversion: interface is not string")

/-- The payload built by `identityEntityAliasUpdate` (source lines 335-351):
the current remote values of name/mount_accessor/canonical_id, overlaid by
whichever of them `GetOk` finds set locally, then custom_metadata replaced
wholesale with the local value. -/
def identityEntityAliasUpdateData (d : AliasResourceData) (resp : Secret) :
    List (String × Value) :=
  let data : List (String × Value) :=
    [("name", resp.get "name"),
     ("mount_accessor", resp.get "mount_accessor"),
     ("canonical_id", resp.get "canonical_id")]
  let data := match getOk d.name with
    | some name => mapSet data "name" (.str name)
    | none => data
  let data := match getOk d.mount_accessor with
    | some v => mapSet data "mount_accessor" (.str v)
    | none => data
  let data := match getOk d.canonical_id with
    | some v => mapSet data "canonical_id" (.str v)
    | none => data
  mapSet data "custom_metadata" (.obj (getMap d.custom_metadata))

/-- `identityEntityAliasUpdate` (source lines 323-361). When the initial read
returns `(nil, nil)` the Go code evaluates `resp.Data` on a nil pointer, a
runtime panic. -/
def identityEntityAliasUpdate (c : Client) (d : AliasResourceData) :
    List RemoteCall × Result AliasResourceData :=
  let id := d.id
  let p := identityEntityAliasIDPath id
  match c.read p with
  | .fail e =>
    ([.read p], .err d ("error updating IdentityEntityAlias " ++ goQuote id ++ ": " ++ e))
  | .ok none =>
    ([.read p], .panic "runtime error: invalid memory address or nil pointer dereference")
  | .ok (some resp) =>
    let data := identityEntityAliasUpdateData d resp
    match c.write p data with
    | .fail e =>
      ([.read p, .write p data],
        .err d ("error updating IdentityEntityAlias " ++ goQuote id ++ ": " ++ e))
    | .ok _ =>
      let res := identityEntityAliasRead c d
      (.read p :: .write p data :: res.1, res.2)

/-- `identityEntityAliasDelete` (source lines 390-404): on a transport error
the returned message is built from the id alone — the underlying error does
not occur in it. -/
def identityEntityAliasDelete (c : Client) (d : AliasResourceData) :
    List RemoteCall × Result AliasResourceData :=
  let id := d.id
  let p := identityEntityAliasIDPath id
  match c.delete p with
  | .fail _ => ([.delete p], .err d ("error IdentityEntityAlias " ++ goQuote id))
  | .ok _ => ([.delete p], .ok d)

/-- `identityEntityAliasExists` (source lines 406-427): with an empty id the
lookup falls back to the name-indexed path. Returns the trace, the boolean
answer, and the error return value. -/
def identityEntityAliasExists (c : Client) (d : AliasResourceData) :
    List RemoteCall × Bool × Option String :=
  let id := d.id
  let pk : String × String :=
    if id.length = 0 then (identityEntityAliasNamePath (getStr d.name), getStr d.name)
    else (identityEntityAliasIDPath id, id)
  match c.read pk.1 with
  | .fail e =>
    ([.read pk.1], true,
      some ("error checking if IdentityEntityAlias " ++ goQuote pk.2 ++ " exists: " ++ e))
  | .ok resp => ([.read pk.1], resp.isSome, none)

/-! ### Concrete fixtures used by witnesses and counterexamples -/

/-- A client whose every call succeeds with an empty (nil) response. -/
def clientAbsent : Client :=
  ⟨fun _ => .ok none, fun _ _ => .ok none, fun _ => .ok none⟩

/-- A client whose every call fails with the transport error "boom". -/
def clientFailing : Client :=
  ⟨fun _ => .fail "boom", fun _ _ => .fail "boom", fun _ => .fail "boom"⟩

/-- An alias resource with a stored id. -/
def aliasFixture : AliasResourceData :=
  { id := "alias-1", name := some "al", mount_accessor := some "acc",
    canonical_id := some "ent-1", custom_metadata := some [("env", .str "prod")] }

/-- An alias resource with no stored id yet. -/
def aliasNoId : AliasResourceData :=
  { id := "", name := some "al", mount_accessor := some "acc",
    canonical_id := some "ent-1", custom_metadata := none }

theorem string_length_ne_zero {s : String} (h : s ≠ "") : s.length ≠ 0 :=
  fun hl => h (String.ext (List.length_eq_zero.mp hl))

/-- C7: for every alias whose remote read returns no object and no transport
error, alias Read clears the local identity (sets the id to "") and returns
success with no error. -/
theorem aliasRead_absent_clears_and_succeeds (c : Client) (d : AliasResourceData)
    (h : c.read (identityEntityAliasIDPath d.id) = .ok none) :
    identityEntityAliasRead c d =
      ([.read (identityEntityAliasIDPath d.id)], .ok { d with id := "" }) := by
  simp [identityEntityAliasRead, h]

/-- Witness for C7 at a concrete client and alias. -/
theorem aliasRead_absent_clears_and_succeeds_witness :
    identityEntityAliasRead clientAbsent aliasFixture =
      ([.read (identityEntityAliasIDPath "alias-1")], .ok { aliasFixture with id := "" }) :=
  aliasRead_absent_clears_and_succeeds clientAbsent aliasFixture rfl

/-- C9: for every alias Delete whose remote delete fails, the returned error
message is a function of the alias id alone — the underlying transport error
text does not occur in it. -/
theorem aliasDelete_error_omits_cause (c : Client) (d : AliasResourceData) (e : String)
    (h : c.delete (identityEntityAliasIDPath d.id) = .fail e) :
    identityEntityAliasDelete c d =
      ([.delete (identityEntityAliasIDPath d.id)],
        .err d ("error IdentityEntityAlias " ++ goQuote d.id)) := by
  simp [identityEntityAliasDelete, h]

/-- Witness for C9 at a concrete client and alias. -/
theorem aliasDelete_error_omits_cause_witness :
    identityEntityAliasDelete clientFailing aliasFixture =
      ([.delete (identityEntityAliasIDPath "alias-1")],
        .err aliasFixture ("error IdentityEntityAlias " ++ goQuote "alias-1")) :=
  aliasDelete_error_omits_cause clientFailing aliasFixture "boom" rfl

/-- C10: for every alias Update whose initial read of the current remote object
returns no object and no error, the handler dereferences the nil response and
panics instead of returning through the error branch. -/
theorem aliasUpdate_absent_panics (c : Client) (d : AliasResourceData)
    (h : c.read (identityEntityAliasIDPath d.id) = .ok none) :
    identityEntityAliasUpdate c d =
      ([.read (identityEntityAliasIDPath d.id)],
        .panic "runtime error: invalid memory address or nil pointer dereference") := by
  simp [identityEntityAliasUpdate, h]

/-- Witness for C10 at a concrete client and alias. -/
theorem aliasUpdate_absent_panics_witness :
    identityEntityAliasUpdate clientAbsent aliasFixture =
      ([.read (identityEntityAliasIDPath "alias-1")],
        .panic "runtime error: invalid memory address or nil pointer dereference") :=
  aliasUpdate_absent_panics clientAbsent aliasFixture rfl

/-- C8: the alias Exists check queries the name-indexed path when the stored id
is empty and the id-indexed path when it is not, and — absent transport
errors — answers true iff the queried path resolves to an object. -/
theorem aliasExists_path_selection (c : Client) (d : AliasResourceData) (r : Option Secret) :
    (d.id = "" →
      c.read (identityEntityAliasNamePath (getStr d.name)) = .ok r →
      identityEntityAliasExists c d =
        ([.read (identityEntityAliasNamePath (getStr d.name))], r.isSome, none)) ∧
    (d.id ≠ "" →
      c.read (identityEntityAliasIDPath d.id) = .ok r →
      identityEntityAliasExists c d =
        ([.read (identityEntityAliasIDPath d.id)], r.isSome, none)) := by
  constructor
  · intro h1 h2
    simp [identityEntityAliasExists, h1, h2]
  · intro h1 h2
    simp [identityEntityAliasExists, string_length_ne_zero h1, h2]

/-- Witness for C8: empty-id lookup goes through the name path. -/
theorem aliasExists_path_selection_witness :
    identityEntityAliasExists clientAbsent aliasNoId =
      ([.read (identityEntityAliasNamePath "al")], false, none) :=
  (aliasExists_path_selection clientAbsent aliasNoId none).1 rfl rfl

/-- A role resource holding a valid id whose remote object will be absent. -/
def roleFixture : RoleResourceData :=
  { id := "tfc/role/admin", name := "admin", path := none, backend := some "tfc",
    organization := some "org", team_id := none, user_id := none,
    max_ttl := none, ttl := none }

/-- C2 as stated is false on the code: role Read of a valid id whose remote
object is absent returns the NotFound error with the stored id left intact —
`d.SetId("")` is not called on this branch, so the local identity is not
cleared. -/
theorem roleRead_absent_counterexample :
    terraformCloudSecretBackendRoleRead clientAbsent roleFixture =
      ([.read "tfc/role/admin"], .err roleFixture "resource not found") ∧
    roleFixture.id = "tfc/role/admin" := ⟨rfl, rfl⟩

/-- C2 amended: for every role whose stored id parses and whose remote read
returns no object and no error, Read fails with the NotFound error
"resource not found" and leaves the resource data — in particular the stored
id — unchanged; the id is cleared only when it fails to parse. -/
theorem roleRead_absent_errors_keeps_id (c : Client) (d : RoleResourceData)
    (n b : String)
    (hn : terraformCloudSecretBackendRoleNameFromPath d.id = .ok n)
    (hb : terraformCloudSecretBackendRoleBackendFromPath d.id = .ok b)
    (h : c.read d.id = .ok none) :
    terraformCloudSecretBackendRoleRead c d =
      ([.read d.id], .err d "resource not found") := by
  simp [terraformCloudSecretBackendRoleRead, hn, hb, h]

/-- Witness for the amended C2. -/
theorem roleRead_absent_errors_keeps_id_witness :
    terraformCloudSecretBackendRoleRead clientAbsent roleFixture =
      ([.read "tfc/role/admin"], .err roleFixture "resource not found") :=
  roleRead_absent_errors_keeps_id clientAbsent roleFixture "admin" "tfc" rfl rfl rfl

/-- A role create description with ttl explicitly set to 0. -/
def roleTtlZero : RoleResourceData :=
  { id := "", name := "admin", path := none, backend := some "tfc",
    organization := some "org", team_id := none, user_id := none,
    max_ttl := none, ttl := some 0 }

/-- A role create description with ttl set to 300. -/
def roleTtl300 : RoleResourceData :=
  { roleTtlZero with ttl := some 300 }

/-- C5 as stated is false on the code: the handler tests `GetOkExists`, which
reports an attribute explicitly set to 0 as present, so a Create with ttl set
to 0 sends `("ttl", 0)` in the outbound payload instead of omitting it. -/
theorem roleWrite_ttl_zero_counterexample :
    (terraformCloudSecretBackendRoleWritePayload roleTtlZero).lookup "ttl" =
      some (Value.int 0) ∧
    (terraformCloudSecretBackendRoleWrite clientAbsent roleTtlZero).1 =
      [.write "tfc/role/admin" [("ttl", Value.int 0), ("organization", Value.str "org")],
       .read "tfc/role/admin"] := ⟨rfl, rfl⟩

theorem rolePayload_ttl_lookup (d : RoleResourceData) :
    (terraformCloudSecretBackendRoleWritePayload d).lookup "ttl" = d.ttl.map Value.int ∧
    (terraformCloudSecretBackendRoleWritePayload d).lookup "max_ttl" = d.max_ttl.map Value.int := by
  obtain ⟨i, na, pa, be, org, team, user, maxttl, ttl⟩ := d
  unfold terraformCloudSecretBackendRoleWritePayload
  cases maxttl <;> cases ttl <;> cases org <;> cases team <;> cases user <;>
    exact ⟨rfl, rfl⟩

/-- C5 amended: a ttl or max_ttl that is unset (not present, per GetOkExists)
is omitted from the outbound payload so the system default applies, while a
present value is included with its value — an explicitly present 0 included —
and in particular a ttl of 300 appears as `("ttl", 300)`. -/
theorem roleWrite_payload_ttl (c : Client) (d : RoleResourceData) :
    ((terraformCloudSecretBackendRoleWritePayload d).lookup "ttl" =
      d.ttl.map Value.int) ∧
    ((terraformCloudSecretBackendRoleWritePayload d).lookup "max_ttl" =
      d.max_ttl.map Value.int) ∧
    (terraformCloudSecretBackendRoleGetBackend d ≠ "" →
      (terraformCloudSecretBackendRoleWrite c d).1.head? =
        some (.write
          (terraformCloudSecretBackendRolePath
            (terraformCloudSecretBackendRoleGetBackend d) d.name)
          (terraformCloudSecretBackendRoleWritePayload d))) ∧
    (terraformCloudSecretBackendRoleWritePayload roleTtl300).lookup "ttl" =
      some (Value.int 300) := by
  refine ⟨(rolePayload_ttl_lookup d).1, (rolePayload_ttl_lookup d).2, fun h => ?_, rfl⟩
  simp only [terraformCloudSecretBackendRoleWrite]
  rw [if_neg h]
  cases c.write
      (terraformCloudSecretBackendRolePath
        (terraformCloudSecretBackendRoleGetBackend d) d.name)
      (terraformCloudSecretBackendRoleWritePayload d) <;> rfl

/-- Witness for the amended C5: ttl=300 is included in the written payload. -/
theorem roleWrite_payload_ttl_witness :
    (terraformCloudSecretBackendRoleWrite clientAbsent roleTtl300).1.head? =
      some (.write "tfc/role/admin"
        [("ttl", Value.int 300), ("organization", Value.str "org")]) :=
  (roleWrite_payload_ttl clientAbsent roleTtl300).2.2.1 (by decide)

theorem getOk_isSome {o : Option String} {v : String} (h : getOk o = some v) :
    o.isSome = true := by
  cases o with
  | none => simp [getOk] at h
  | some s => rfl

/-- C6: through the framework's ConflictsWith validation, role Create/Update
with both backend and path set is rejected as a configuration conflict; with
neither set, the handler fails with the ConfigurationError naming the role;
the remote write is reached exactly when the configuration does not conflict
and the resolved backend is nonempty, in which case exactly one of the two
fields is set. -/
theorem roleWrite_backend_path_validation (c : Client) (d : RoleResourceData) :
    (d.path.isSome = true → d.backend.isSome = true →
      terraformCloudSecretBackendRoleCreateWithValidation c d =
        ([], .err d "\"path\": conflicts with backend")) ∧
    (d.path = none → d.backend = none →
      terraformCloudSecretBackendRoleCreateWithValidation c d =
        ([], .err d ("No backend specified for Terraform Cloud secret backend role "
          ++ d.name))) ∧
    ((terraformCloudSecretBackendRoleConfigConflict d = false ∧
        terraformCloudSecretBackendRoleGetBackend d ≠ "") ↔
      (terraformCloudSecretBackendRoleCreateWithValidation c d).1.head? =
        some (.write
          (terraformCloudSecretBackendRolePath
            (terraformCloudSecretBackendRoleGetBackend d) d.name)
          (terraformCloudSecretBackendRoleWritePayload d))) ∧
    (terraformCloudSecretBackendRoleConfigConflict d = false →
      terraformCloudSecretBackendRoleGetBackend d ≠ "" →
      d.path.isSome ≠ d.backend.isSome) := by
  refine ⟨fun hp hb => ?_, fun hp hb => ?_, ⟨fun ⟨h1, h2⟩ => ?_, fun h => ⟨?_, ?_⟩⟩, fun h1 h2 => ?_⟩
  · simp [terraformCloudSecretBackendRoleCreateWithValidation,
      terraformCloudSecretBackendRoleConfigConflict, hp, hb]
  · simp [terraformCloudSecretBackendRoleCreateWithValidation,
      terraformCloudSecretBackendRoleConfigConflict,
      terraformCloudSecretBackendRoleWrite,
      terraformCloudSecretBackendRoleGetBackend, getOk, hp, hb]
  · simp only [terraformCloudSecretBackendRoleCreateWithValidation, h1, Bool.false_eq_true,
      if_false, terraformCloudSecretBackendRoleWrite]
    rw [if_neg h2]
    cases c.write
        (terraformCloudSecretBackendRolePath
          (terraformCloudSecretBackendRoleGetBackend d) d.name)
        (terraformCloudSecretBackendRoleWritePayload d) <;> rfl
  · by_contra hc
    rw [Bool.not_eq_false] at hc
    simp [terraformCloudSecretBackendRoleCreateWithValidation, hc] at h
  · intro hz
    rw [terraformCloudSecretBackendRoleCreateWithValidation] at h
    by_cases hc : terraformCloudSecretBackendRoleConfigConflict d = true
    · simp [hc] at h
    · rw [if_neg hc] at h
      simp only [terraformCloudSecretBackendRoleWrite, hz, if_pos rfl] at h
      simp at h
  · unfold terraformCloudSecretBackendRoleGetBackend at h2
    unfold terraformCloudSecretBackendRoleConfigConflict at h1
    cases hgb : getOk d.backend with
    | some v =>
      have hbs := getOk_isSome hgb
      simp [hbs] at h1
      simp [h1, hbs]
    | none =>
      rw [hgb] at h2
      cases hgp : getOk d.path with
      | some v =>
        have hps := getOk_isSome hgp
        have : d.backend.isSome = false := by
          by_contra hbs
          rw [Bool.not_eq_false] at hbs
          simp [hps, hbs] at h1
        simp [hps, this]
      | none => rw [hgp] at h2; exact absurd rfl h2

/-- A role description with neither backend nor path set. -/
def roleNoBackend : RoleResourceData :=
  { id := "", name := "admin", path := none, backend := none,
    organization := some "org", team_id := none, user_id := none,
    max_ttl := none, ttl := none }

/-- Witness for C6: with neither field set, the error names the role. -/
theorem roleWrite_backend_path_validation_witness :
    terraformCloudSecretBackendRoleCreateWithValidation clientAbsent roleNoBackend =
      ([], .err roleNoBackend
        "No backend specified for Terraform Cloud secret backend role admin") :=
  (roleWrite_backend_path_validation clientAbsent roleNoBackend).2.1 rfl rfl

theorem aliasUpdateData_lookup (d : AliasResourceData) (resp : Secret) :
    objGet (identityEntityAliasUpdateData d resp) "name" =
      (match getOk d.name with | some n => .str n | none => resp.get "name") ∧
    objGet (identityEntityAliasUpdateData d resp) "mount_accessor" =
      (match getOk d.mount_accessor with | some v => .str v | none => resp.get "mount_accessor") ∧
    objGet (identityEntityAliasUpdateData d resp) "canonical_id" =
      (match getOk d.canonical_id with | some v => .str v | none => resp.get "canonical_id") ∧
    objGet (identityEntityAliasUpdateData d resp) "custom_metadata" =
      .obj (getMap d.custom_metadata) := by
  unfold identityEntityAliasUpdateData
  cases hn : getOk d.name <;> cases hm : getOk d.mount_accessor <;>
    cases hc : getOk d.canonical_id <;> simp [mapSet, objGet, List.lookup]

/-- C4: for every alias Update whose initial read returns the current remote
object, the written payload carries the remote name/mount_accessor/
canonical_id except where the local description has the field set (GetOk),
and custom_metadata is always replaced wholesale with the local value; in
particular, with none of the three set locally they keep their remote
values. -/
theorem aliasUpdate_merge_patch (c : Client) (d : AliasResourceData) (resp : Secret)
    (h : c.read (identityEntityAliasIDPath d.id) = .ok (some resp)) :
    (∃ rest res, identityEntityAliasUpdate c d =
      (.read (identityEntityAliasIDPath d.id) ::
        .write (identityEntityAliasIDPath d.id) (identityEntityAliasUpdateData d resp)
        :: rest, res)) ∧
    objGet (identityEntityAliasUpdateData d resp) "name" =
      (match getOk d.name with | some n => .str n | none => resp.get "name") ∧
    objGet (identityEntityAliasUpdateData d resp) "mount_accessor" =
      (match getOk d.mount_accessor with | some v => .str v | none => resp.get "mount_accessor") ∧
    objGet (identityEntityAliasUpdateData d resp) "canonical_id" =
      (match getOk d.canonical_id with | some v => .str v | none => resp.get "canonical_id") ∧
    objGet (identityEntityAliasUpdateData d resp) "custom_metadata" =
      .obj (getMap d.custom_metadata) ∧
    (getOk d.name = none → getOk d.mount_accessor = none → getOk d.canonical_id = none →
      objGet (identityEntityAliasUpdateData d resp) "name" = resp.get "name" ∧
      objGet (identityEntityAliasUpdateData d resp) "mount_accessor" = resp.get "mount_accessor" ∧
      objGet (identityEntityAliasUpdateData d resp) "canonical_id" = resp.get "canonical_id") := by
  obtain ⟨l1, l2, l3, l4⟩ := aliasUpdateData_lookup d resp
  refine ⟨?_, l1, l2, l3, l4, fun h1 h2 h3 => ?_⟩
  · simp only [identityEntityAliasUpdate, h]
    cases hw : c.write (identityEntityAliasIDPath d.id) (identityEntityAliasUpdateData d resp) with
    | fail e =>
      exact ⟨[], .err d ("error updating IdentityEntityAlias " ++ goQuote d.id ++ ": " ++ e),
        by simp [hw]⟩
    | ok o =>
      exact ⟨(identityEntityAliasRead c d).1, (identityEntityAliasRead c d).2, by simp [hw]⟩
  · rw [h1] at l1; rw [h2] at l2; rw [h3] at l3
    exact ⟨l1, l2, l3⟩

/-- The remote state of the alias used by the C4 witness. -/
def aliasRemoteSecret : Secret :=
  ⟨[("id", .str "alias-1"), ("name", .str "remote-name"),
    ("mount_accessor", .str "remote-acc"), ("canonical_id", .str "ent-9"),
    ("custom_metadata", .obj [])]⟩

/-- A client whose reads all resolve to `aliasRemoteSecret`. -/
def clientAliasRemote : Client :=
  ⟨fun _ => .ok (some aliasRemoteSecret), fun _ _ => .ok none, fun _ => .ok none⟩

/-- An alias description with only custom_metadata set. -/
def aliasOnlyMetadata : AliasResourceData :=
  { id := "alias-1", name := none, mount_accessor := none, canonical_id := none,
    custom_metadata := some [("env", .str "prod")] }

/-- Witness for C4: an update with only custom_metadata set writes the remote
name/mount_accessor/canonical_id and the local metadata. -/
theorem aliasUpdate_merge_patch_witness :
    objGet (identityEntityAliasUpdateData aliasOnlyMetadata aliasRemoteSecret) "name" =
      aliasRemoteSecret.get "name" ∧
    objGet (identityEntityAliasUpdateData aliasOnlyMetadata aliasRemoteSecret) "mount_accessor" =
      aliasRemoteSecret.get "mount_accessor" ∧
    objGet (identityEntityAliasUpdateData aliasOnlyMetadata aliasRemoteSecret) "canonical_id" =
      aliasRemoteSecret.get "canonical_id" ∧
    objGet (identityEntityAliasUpdateData aliasOnlyMetadata aliasRemoteSecret) "custom_metadata" =
      .obj [("env", .str "prod")] :=
  have T := aliasUpdate_merge_patch clientAliasRemote aliasOnlyMetadata aliasRemoteSecret rfl
  have L := T.2.2.2.2.2 rfl rfl rfl
  ⟨L.1, L.2.1, L.2.2, T.2.2.2.2.1⟩

/-- An element of the entity's `aliases` slice that the `findAliasID` loop
accepts: a string map whose name and mount_accessor equal the request. -/
def aliasEntryMatches (name mountAccessor : String) (v : Value) : Prop :=
  ∃ flds, v = .obj flds ∧ valueEqStr (objGet flds "name") name = true ∧
    valueEqStr (objGet flds "mount_accessor") mountAccessor = true

/-- Well-formedness of an `aliases` element as assumed by the Go type
assertions: a string map whose id is a string. -/
def aliasEntryWF (v : Value) : Prop :=
  ∃ flds, v = .obj flds ∧ ∃ s, objGet flds "id" = .str s

theorem findAliasIDScan_found (canonicalID name mountAccessor : String) :
    ∀ l : List Value, (∀ v ∈ l, aliasEntryWF v) →
      (∃ v ∈ l, aliasEntryMatches name mountAccessor v) →
      ∃ aid flds, findAliasIDScan canonicalID name mountAccessor l = .ret (.ok aid) ∧
        Value.obj flds ∈ l ∧ aliasEntryMatches name mountAccessor (.obj flds) ∧
        objGet flds "id" = .str aid := by
  intro l
  induction l with
  | nil =>
    rintro _ ⟨v, hv, _⟩
    exact absurd hv (List.not_mem_nil v)
  | cons hd tl ih =>
    rintro hwf ⟨v, hv, hm⟩
    obtain ⟨flds, heq, s, hs⟩ := hwf hd (List.mem_cons_self hd tl)
    subst heq
    by_cases ht : (valueEqStr (objGet flds "name") name &&
        valueEqStr (objGet flds "mount_accessor") mountAccessor) = true
    · refine ⟨s, flds, ?_, List.mem_cons_self _ _, ?_, hs⟩
      · simp [findAliasIDScan, ht, hs]
      · simp only [Bool.and_eq_true] at ht
        exact ⟨flds, rfl, ht.1, ht.2⟩
    · have hvtl : ∃ v ∈ tl, aliasEntryMatches name mountAccessor v := by
        rcases List.mem_cons.mp hv with rfl | hvt
        · obtain ⟨flds', he, h1, h2⟩ := hm
          obtain rfl : flds' = flds := (Value.obj.inj he).symm
          exact absurd (by simp [h1, h2]) ht
        · exact ⟨v, hvt, hm⟩
      obtain ⟨aid, flds', hscan, hmem, hmatch, hid⟩ :=
        ih (fun v hv => hwf v (List.mem_cons_of_mem _ hv)) hvtl
      refine ⟨aid, flds', ?_, List.mem_cons_of_mem _ hmem, hmatch, hid⟩
      simp [findAliasIDScan, ht, hscan]

theorem findAliasIDScan_not_found (canonicalID name mountAccessor : String) :
    ∀ l : List Value, (∀ v ∈ l, ∃ flds, v = .obj flds) →
      (∀ v ∈ l, ¬ aliasEntryMatches name mountAccessor v) →
      findAliasIDScan canonicalID name mountAccessor l =
        .ret (.error (findAliasIDFailMsg canonicalID name mountAccessor)) := by
  intro l
  induction l with
  | nil => intro _ _; rfl
  | cons hd tl ih =>
    intro hobj hnm
    obtain ⟨flds, heq⟩ := hobj hd (List.mem_cons_self hd tl)
    subst heq
    have ht : (valueEqStr (objGet flds "name") name &&
        valueEqStr (objGet flds "mount_accessor") mountAccessor) = false := by
      by_contra hx
      rw [Bool.not_eq_false] at hx
      simp only [Bool.and_eq_true] at hx
      exact hnm _ (List.mem_cons_self _ _) ⟨flds, rfl, hx.1, hx.2⟩
    rw [show findAliasIDScan canonicalID name mountAccessor (Value.obj flds :: tl) =
      findAliasIDScan canonicalID name mountAccessor tl from by simp [findAliasIDScan, ht]]
    exact ih (fun v hv => hobj v (List.mem_cons_of_mem _ hv))
      (fun v hv => hnm v (List.mem_cons_of_mem _ hv))

/-- C3: for every alias Create whose remote write returns an empty response and
no error, the handler reports an already-exists error rather than success: if
the entity at canonical_id lists an alias whose name and mount_accessor match
the request, the message embeds that matching alias's id as an import hint
(and the id occurs as a substring of the message); with no matching alias the
message carries the generic fallback text. -/
theorem aliasCreate_merge_error (c : Client) (d : AliasResourceData)
    (entity : Secret) (aliases : List Value)
    (hw : c.write identityEntityAliasPath (identityEntityAliasCreateData d) = .ok none)
    (hr : c.read (identityEntityIDPath (getStr d.canonical_id)) = .ok (some entity))
    (ha : entity.get "aliases" = .arr aliases) :
    ((∀ v ∈ aliases, aliasEntryWF v) →
      (∃ v ∈ aliases, aliasEntryMatches (getStr d.name) (getStr d.mount_accessor) v) →
      ∃ aid flds,
        identityEntityAliasCreate c d =
          ([.write identityEntityAliasPath (identityEntityAliasCreateData d),
            .read (identityEntityIDPath (getStr d.canonical_id))],
           .err d ("IdentityEntityAlias " ++ goQuote (getStr d.name) ++
             " already exists. " ++
             ("Alias resource ID " ++ goQuote aid ++ " may be imported."))) ∧
        Value.obj flds ∈ aliases ∧
        aliasEntryMatches (getStr d.name) (getStr d.mount_accessor) (.obj flds) ∧
        objGet flds "id" = .str aid ∧
        (∃ pre post : List Char,
          ("IdentityEntityAlias " ++ goQuote (getStr d.name) ++ " already exists. " ++
            ("Alias resource ID " ++ goQuote aid ++ " may be imported.")).data =
            pre ++ aid.data ++ post)) ∧
    ((∀ v ∈ aliases, ∃ flds, v = .obj flds) →
      (∀ v ∈ aliases, ¬ aliasEntryMatches (getStr d.name) (getStr d.mount_accessor) v) →
      identityEntityAliasCreate c d =
        ([.write identityEntityAliasPath (identityEntityAliasCreateData d),
          .read (identityEntityIDPath (getStr d.canonical_id))],
         .err d ("IdentityEntityAlias " ++ goQuote (getStr d.name) ++
           " already exists. " ++ "Unable to determine alias id."))) := by
  constructor
  · intro hwf hex
    obtain ⟨aid, flds, hscan, hmem, hmatch, hid⟩ :=
      findAliasIDScan_found (getStr d.canonical_id) (getStr d.name)
        (getStr d.mount_accessor) aliases hwf hex
    refine ⟨aid, flds, ?_, hmem, hmatch, hid, ?_⟩
    · simp [identityEntityAliasCreate, hw, findAliasID, hr, ha, hscan]
    · refine ⟨("IdentityEntityAlias " ++ goQuote (getStr d.name) ++ " already exists. " ++
        "Alias resource ID " ++ "\"").data, ("\"" ++ " may be imported.").data, ?_⟩
      simp [goQuote, String.data_append, List.append_assoc]
  · intro hobj hnm
    have hscan := findAliasIDScan_not_found (getStr d.canonical_id) (getStr d.name)
      (getStr d.mount_accessor) aliases hobj hnm
    simp [identityEntityAliasCreate, hw, findAliasID, hr, ha, hscan]

/-- The entity read by the C3 witness: one alias matching (al, acc), with id
alias-7. -/
def mergeEntity : Secret :=
  ⟨[("aliases", .arr [Value.obj
      [("name", .str "al"), ("mount_accessor", .str "acc"), ("id", .str "alias-7")]])]⟩

/-- A client whose writes return an empty response and whose reads resolve to
`mergeEntity`. -/
def clientMerge : Client :=
  ⟨fun _ => .ok (some mergeEntity), fun _ _ => .ok none, fun _ => .ok none⟩

/-- Witness for C3: the merge-case create on `aliasNoId` reports the matching
alias id alias-7. -/
theorem aliasCreate_merge_error_witness :
    ∃ aid flds,
      identityEntityAliasCreate clientMerge aliasNoId =
        ([.write identityEntityAliasPath (identityEntityAliasCreateData aliasNoId),
          .read (identityEntityIDPath "ent-1")],
         .err aliasNoId ("IdentityEntityAlias " ++ goQuote "al" ++
           " already exists. " ++
           ("Alias resource ID " ++ goQuote aid ++ " may be imported."))) ∧
      Value.obj flds ∈ [Value.obj [("name", Value.str "al"),
        ("mount_accessor", Value.str "acc"), ("id", Value.str "alias-7")]] ∧
      aliasEntryMatches "al" "acc" (.obj flds) ∧
      objGet flds "id" = .str aid ∧
      (∃ pre post : List Char,
        ("IdentityEntityAlias " ++ goQuote "al" ++ " already exists. " ++
          ("Alias resource ID " ++ goQuote aid ++ " may be imported.")).data =
          pre ++ aid.data ++ post) :=
  (aliasCreate_merge_error clientMerge aliasNoId mergeEntity
      [Value.obj [("name", .str "al"), ("mount_accessor", .str "acc"),
        ("id", .str "alias-7")]] rfl rfl rfl).1
    (fun v hv => by
      rw [List.mem_singleton] at hv
      subst hv
      exact ⟨_, rfl, "alias-7", rfl⟩)
    ⟨Value.obj [("name", .str "al"), ("mount_accessor", .str "acc"),
        ("id", .str "alias-7")],
      List.mem_singleton.mpr rfl,
      ⟨[("name", .str "al"), ("mount_accessor", .str "acc"), ("id", .str "alias-7")],
        rfl, rfl, rfl⟩⟩

end TfProviderVault
